import Mathlib

/-
Verification of the Transaction Lifecycle & Fulfillment Engine of the
inventory-management repository (Django backend under backend/payments/).

Shallow embedding conventions:
* Money (`DecimalField(decimal_places=2)`) is modelled as `Int` in cents:
  `Decimal('5000.00')` is `500000`.  All arithmetic the embedded code performs
  on money (comparison, addition, subtraction, multiplication by an integer
  quantity) is exact on `Decimal`, so `Int` cents is a faithful model.
* Parser confidence floats (0.9, 0.95, 0.8, 0) are modelled in hundredths as
  `Nat` (90, 95, 80, 0); all comparisons performed on them are exact in IEEE
  doubles, so the integer model is faithful.
* A Django `save()` / service call that raises is modelled as
  `Except TxnError _`.  Every mutating service method runs inside
  `transaction.atomic()`, so an exception means the database transaction
  rolled back and the persisted state is unchanged; an `Except.error e`
  result therefore means "the call failed with `e` and the store is exactly
  as it was before the call".
* `None` / nullable columns are `Option _`.
-/

/-- Status enum of `Transaction.OrderStatus` (backend/payments/models.py). -/
inductive OrderStatus where
  | not_processed
  | processing
  | partially_fulfilled
  | fulfilled
  | cancelled
deriving DecidableEq, Repr

/-- Errors raised by the embedded code.  The first block mirrors the
`ValidationError` keys raised in `Transaction.clean`/`save`, the second the
service-level exception classes of utils/exceptions.py, the rest the
`ValidationError` keys raised by the fulfillment and order services. -/
inductive TxnError where
  | validation_amount_paid
  | locked_modified
  | invalid_transition
  | check_constraint
  | transaction_locked
  | invalid_status_transition
  | validation_amount
  | insufficient_amount
  | validation_reason
  | issuance_already_active
  | invalid_issuance_status
  | not_in_issuance
  | barcode_missing
  | product_not_found
  | invalid_quantity
  | insufficient_stock
  | amount_exceeded
  | empty_issuance
  | missing_product_row
deriving DecidableEq, Repr

/-- The `Transaction` model (backend/payments/models.py), restricted to the
fields the verified operations read or write.  `amount_paid` is the legacy
accumulator (`default=0`); the services always treat it as a number, so it is
an `Int` here. -/
structure Transaction where
  tx_id : String
  amount : Int
  amount_expected : Option Int
  amount_paid : Int
  amount_fulfilled : Int
  total_cost : Option Int
  total_pv : Option Int
  is_in_issuance : Bool
  status : OrderStatus
  notes : String
deriving DecidableEq, Repr

/-- Embeds `Transaction.is_locked`: `self.status in [FULFILLED, CANCELLED]`. -/
def Transaction.is_locked (t : Transaction) : Bool :=
  match t.status with
  | .fulfilled => true
  | .cancelled => true
  | _ => false

/-- The `valid_transitions` table of `Transaction.can_transition_to`
(`valid_transitions.get(self.status, [])`: missing keys give `[]`). -/
def valid_transitions (status : OrderStatus) : List OrderStatus :=
  match status with
  | .not_processed => [.processing, .cancelled]
  | .processing => [.partially_fulfilled, .fulfilled, .cancelled]
  | .partially_fulfilled => [.fulfilled, .cancelled]
  | _ => []

/-- Embeds `Transaction.can_transition_to`: `False` when locked, otherwise
`new_status in valid_transitions.get(self.status, [])`. -/
def Transaction.can_transition_to (t : Transaction) (new_status : OrderStatus) : Bool :=
  if t.is_locked then false
  else decide (new_status ∈ valid_transitions t.status)

/-- Embeds the `Transaction.remaining_amount` property: `0.00` when locked,
otherwise `amount` minus `amount_fulfilled`, falling back to the legacy
`amount_paid` when `amount_fulfilled` is not positive. -/
def Transaction.remaining_amount (t : Transaction) : Int :=
  if t.is_locked then 0
  else
    let paid := if t.amount_fulfilled > 0 then t.amount_fulfilled else t.amount_paid
    t.amount - paid

/-- Embeds `Transaction.clean`.  `old` is the row currently in the database
(`Transaction.objects.get(pk=self.pk)`); `none` models a fresh insert, for
which the `self.pk` branch is skipped. -/
def Transaction.clean (old : Option Transaction) (t : Transaction) :
    Except TxnError Unit :=
  if t.amount_paid > t.amount then Except.error TxnError.validation_amount_paid
  else
    match old with
    | some old_instance =>
        if old_instance.is_locked ∧ old_instance.status ≠ t.status then
          Except.error TxnError.locked_modified
        else if old_instance.status ≠ t.status ∧ ¬ old_instance.can_transition_to t.status then
          Except.error TxnError.invalid_transition
        else Except.ok ()
    | none => Except.ok ()

/-- Embeds `Transaction.save`.  Unless `skip_validation` is set it first runs
`full_clean` (modelled by `Transaction.clean`; the field-level checks concern
fields this embedding does not restrict).  It then applies the auto-transition
block — which the source keys on the legacy `amount_paid` field, not on
`amount_fulfilled` — and finally the write is subject to the storage-level
check constraint `amount_fulfilled <= amount` (`Meta.constraints`). -/
def Transaction.save (old : Option Transaction) (skip_validation : Bool)
    (t : Transaction) : Except TxnError Transaction :=
  match (if !skip_validation then Transaction.clean old t else Except.ok ()) with
  | Except.error e => Except.error e
  | Except.ok _ =>
  let t :=
    if t.amount_paid ≥ t.amount then
      if t.status = OrderStatus.processing ∨ t.status = OrderStatus.partially_fulfilled then
        { t with status := OrderStatus.fulfilled, amount_paid := t.amount }
      else t
    else if t.amount_paid > 0 then
      if t.status = OrderStatus.processing then
        { t with status := OrderStatus.partially_fulfilled }
      else t
    else t
  let t :=
    if t.status = OrderStatus.fulfilled ∧ t.amount_paid < t.amount then
      { t with amount_paid := t.amount }
    else t
  if t.amount_fulfilled > t.amount then Except.error TxnError.check_constraint
  else Except.ok t

/-- Appends a note the way every order-service method does:
`f"{t.notes}\n{note}" if t.notes else note`. -/
def appendNote (existing note : String) : String :=
  if existing ≠ "" then existing ++ "\n" ++ note else note

/-- Embeds `OrderStatusService.mark_as_processing`.  The saved row's database
image is the incoming `t`, so the save is validated against `old := some t`. -/
def mark_as_processing (t : Transaction) (notes : Option String) :
    Except TxnError Transaction :=
  if t.is_locked then Except.error TxnError.transaction_locked
  else if !t.can_transition_to OrderStatus.processing then
    Except.error TxnError.invalid_status_transition
  else
    let t1 := { t with status := OrderStatus.processing }
    let t2 :=
      match notes with
      | some n => { t1 with notes := appendNote t1.notes n }
      | none => t1
    Transaction.save (some t) false t2

/-- Embeds `OrderStatusService.allocate_payment`.  `now` stands for the
`timezone.now()` timestamp rendered into the allocation note; the note text
follows the source f-string, with the Lean rendering of the cent amount
standing in for the Decimal rendering (no verified property reads it back). -/
def allocate_payment (t : Transaction) (order_id : String) (amount : Int)
    (notes : Option String) (now : String) : Except TxnError Transaction :=
  if t.is_locked then Except.error TxnError.transaction_locked
  else if amount ≤ 0 then Except.error TxnError.validation_amount
  else if amount > t.remaining_amount then Except.error TxnError.insufficient_amount
  else
    let t1 := { t with amount_paid := t.amount_paid + amount }
    let allocation_note :=
      "[" ++ now ++ "] Allocated " ++ toString amount ++ " to order " ++ order_id
    let allocation_note :=
      match notes with
      | some n => allocation_note ++ " - " ++ n
      | none => allocation_note
    let t2 := { t1 with notes := appendNote t1.notes allocation_note }
    Transaction.save (some t) false t2

/-- Embeds `OrderStatusService.mark_as_fulfilled`. -/
def mark_as_fulfilled (t : Transaction) (notes : Option String) (now : String) :
    Except TxnError Transaction :=
  if t.is_locked then Except.error TxnError.transaction_locked
  else if !t.can_transition_to OrderStatus.fulfilled then
    Except.error TxnError.invalid_status_transition
  else
    let t1 := { t with status := OrderStatus.fulfilled }
    let fulfillment_note := "[" ++ now ++ "] Manually marked as FULFILLED"
    let fulfillment_note :=
      match notes with
      | some n => fulfillment_note ++ " - " ++ n
      | none => fulfillment_note
    let t2 := { t1 with notes := appendNote t1.notes fulfillment_note }
    Transaction.save (some t) false t2

/-- Embeds `OrderStatusService.cancel_transaction`. -/
def cancel_transaction (t : Transaction) (reason : String) (now : String) :
    Except TxnError Transaction :=
  if t.is_locked then Except.error TxnError.transaction_locked
  else if reason = "" ∨ reason.trim = "" then Except.error TxnError.validation_reason
  else if !t.can_transition_to OrderStatus.cancelled then
    Except.error TxnError.invalid_status_transition
  else
    let t1 := { t with status := OrderStatus.cancelled }
    let cancellation_note := "[" ++ now ++ "] CANCELLED - " ++ reason
    let t2 := { t1 with notes := appendNote t1.notes cancellation_note }
    Transaction.save (some t) false t2

/-- The `Product` model, restricted to the fields the fulfillment service
reads or writes.  `sku` and `prod_code` are unique identifiers. -/
structure Product where
  prod_code : String
  prod_name : String
  sku : String
  sku_name : String
  current_price : Int
  cost_price : Int
  current_pv : Int
  quantity : Int
  is_active : Bool
deriving DecidableEq, Repr

/-- The `TransactionLineItem` model.  All items in a `Store` belong to its
focal transaction; `product_sku` stands in for the `product` foreign key
(`sku` is unique on `Product`). -/
structure TransactionLineItem where
  id : Nat
  product_sku : String
  scanned_prod_code : String
  scanned_prod_name : String
  scanned_sku : String
  scanned_sku_name : String
  scanned_price : Int
  scanned_pv : Int
  quantity : Int
  line_total : Int
  line_cost : Int
  line_pv : Int
  scanned_by : String
deriving DecidableEq, Repr

/-- Embeds `TransactionLineItem.save`: recomputes the derived fields on every
save.  `line_total` and `line_pv` use the frozen scan-time values stored on
the row, but `line_cost` reads `self.product.cost_price` — the product's
current cost price at save time, which is not frozen on the row. -/
def TransactionLineItem.save (item : TransactionLineItem) (product : Product) :
    TransactionLineItem :=
  { item with
    line_total := item.quantity * item.scanned_price
    line_cost := item.quantity * product.cost_price
    line_pv := item.quantity * item.scanned_pv }

/-- The `InventoryMovement` model (movement rows written at completion). -/
structure InventoryMovement where
  movement_type : String
  product_sku : String
  quantity_before : Int
  quantity_after : Int
  quantity_change : Int
  reference : String
  performed_by : String
deriving DecidableEq, Repr

/-- The slice of the database the fulfillment service touches: the focal
transaction with its line items, the product catalog, the movement log, and
whether some *other* transaction currently holds the global issuance slot
(the `exclude(id=transaction_id)` query in `activate_issuance`). -/
structure Store where
  txn : Transaction
  line_items : List TransactionLineItem
  products : List Product
  movements : List InventoryMovement
  other_in_issuance : Bool
  next_item_id : Nat
deriving DecidableEq, Repr

/-- Barcode payload of a scan request (`barcode_data` dict). -/
structure BarcodeData where
  sku : Option String
  prod_code : Option String
  quantity : Int
deriving DecidableEq, Repr

/-- Sums `line_total` over a line-item set, as
`sum(item.line_total for item in all_line_items)`. -/
def sumLineTotals (items : List TransactionLineItem) : Int :=
  (items.map (fun i => i.line_total)).sum

/-- Sums `line_cost` over a line-item set. -/
def sumLineCosts (items : List TransactionLineItem) : Int :=
  (items.map (fun i => i.line_cost)).sum

/-- Sums `line_pv` over a line-item set. -/
def sumLinePvs (items : List TransactionLineItem) : Int :=
  (items.map (fun i => i.line_pv)).sum

/-- Embeds `FulfillmentService.activate_issuance`. -/
def activate_issuance (s : Store) : Except TxnError Store :=
  if s.other_in_issuance then Except.error TxnError.issuance_already_active
  else
    let txn := s.txn
    if txn.is_locked then Except.error TxnError.transaction_locked
    else if ¬ (txn.status = OrderStatus.not_processed ∨ txn.status = OrderStatus.processing ∨
               txn.status = OrderStatus.partially_fulfilled) then
      Except.error TxnError.invalid_issuance_status
    else
      let t1 := { txn with
        is_in_issuance := true
        status := if txn.status = OrderStatus.not_processed then OrderStatus.processing
                  else txn.status }
      match Transaction.save (some txn) false t1 with
      | Except.error e => Except.error e
      | Except.ok t2 => Except.ok { s with txn := t2 }

/-- Resolves the scanned product by SKU (when supplied) or product code,
restricted to active products, as the `Product.objects.select_for_update().get`
calls in `scan_barcode` do; `DoesNotExist` becomes `product_not_found`. -/
def findProduct (s : Store) (barcode_data : BarcodeData) : Except TxnError Product :=
  match barcode_data.sku with
  | some sk =>
      match s.products.find? (fun p => p.sku == sk && p.is_active) with
      | some p => Except.ok p
      | none => Except.error TxnError.product_not_found
  | none =>
      match barcode_data.prod_code with
      | some pc =>
          match s.products.find? (fun p => p.prod_code == pc && p.is_active) with
          | some p => Except.ok p
          | none => Except.error TxnError.product_not_found
      | none => Except.error TxnError.barcode_missing

/-- Embeds `FulfillmentService.scan_barcode`.  On the over-amount branch the
source deletes the just-created line item and raises; together with the
surrounding `transaction.atomic()` this leaves the database untouched, which
the `Except.error` result models. -/
def scan_barcode (s : Store) (barcode_data : BarcodeData) (scanned_by : String) :
    Except TxnError Store :=
  let txn := s.txn
  if ¬ txn.is_in_issuance then Except.error TxnError.not_in_issuance
  else if barcode_data.sku = none ∧ barcode_data.prod_code = none then
    Except.error TxnError.barcode_missing
  else
    match findProduct s barcode_data with
    | Except.error e => Except.error e
    | Except.ok product =>
      let quantity := barcode_data.quantity
      if quantity ≤ 0 then Except.error TxnError.invalid_quantity
      else if product.quantity < quantity then Except.error TxnError.insufficient_stock
      else
        let line_item := TransactionLineItem.save
          { id := s.next_item_id
            product_sku := product.sku
            scanned_prod_code := product.prod_code
            scanned_prod_name := product.prod_name
            scanned_sku := product.sku
            scanned_sku_name := product.sku_name
            scanned_price := product.current_price
            scanned_pv := product.current_pv
            quantity := quantity
            line_total := 0, line_cost := 0, line_pv := 0
            scanned_by := scanned_by } product
        let all_line_items := s.line_items ++ [line_item]
        let new_total := sumLineTotals all_line_items
        let new_cost := sumLineCosts all_line_items
        let new_pv := sumLinePvs all_line_items
        if new_total > txn.amount then
          Except.error TxnError.amount_exceeded
        else
          let t1 := { txn with
            amount_fulfilled := new_total
            total_cost := some new_cost
            total_pv := some new_pv }
          let t1 := { t1 with
            status :=
              if t1.amount_fulfilled ≥ t1.amount then OrderStatus.fulfilled
              else if t1.amount_fulfilled > 0 then OrderStatus.partially_fulfilled
              else t1.status }
          match Transaction.save (some txn) false t1 with
          | Except.error e => Except.error e
          | Except.ok t2 =>
              Except.ok { s with txn := t2, line_items := all_line_items,
                                 next_item_id := s.next_item_id + 1 }

/-- Embeds the per-line-item loop of `complete_issuance`: re-check stock,
decrement it, and append one SALE movement per item.
`missing_product_row` models the (FK-unreachable) `DoesNotExist` on the
product lookup. -/
def applyDeductions (tx_id performed_by : String) :
    List TransactionLineItem → List Product → List InventoryMovement →
    Except TxnError (List Product × List InventoryMovement)
  | [], products, acc => Except.ok (products, acc)
  | item :: rest, products, acc =>
      match products.find? (fun p => p.sku == item.product_sku) with
      | none => Except.error TxnError.missing_product_row
      | some product =>
        if product.quantity < item.quantity then Except.error TxnError.insufficient_stock
        else
          let quantity_before := product.quantity
          let p1 := { product with quantity := product.quantity - item.quantity }
          let products1 := products.map (fun p => if p.sku == item.product_sku then p1 else p)
          let movement : InventoryMovement :=
            { movement_type := "SALE"
              product_sku := product.sku
              quantity_before := quantity_before
              quantity_after := p1.quantity
              quantity_change := -item.quantity
              reference := "Transaction " ++ tx_id
              performed_by := performed_by }
          applyDeductions tx_id performed_by rest products1 (acc ++ [movement])

/-- Embeds `FulfillmentService.complete_issuance`. -/
def complete_issuance (s : Store) (performed_by : String) : Except TxnError Store :=
  let txn := s.txn
  if ¬ txn.is_in_issuance then Except.error TxnError.not_in_issuance
  else if s.line_items.isEmpty then Except.error TxnError.empty_issuance
  else
    match applyDeductions txn.tx_id performed_by s.line_items s.products [] with
    | Except.error e => Except.error e
    | Except.ok (products1, new_movements) =>
      let t1 := { txn with is_in_issuance := false }
      let t1 := { t1 with
        status :=
          if t1.amount_fulfilled ≥ t1.amount then OrderStatus.fulfilled
          else if t1.amount_fulfilled > 0 then OrderStatus.partially_fulfilled
          else t1.status }
      match Transaction.save (some txn) false t1 with
      | Except.error e => Except.error e
      | Except.ok t2 =>
          Except.ok { s with txn := t2, products := products1,
                             movements := s.movements ++ new_movements }

/-- Embeds `FulfillmentService.cancel_issuance`: deletes every line item of
the focal transaction (inventory untouched), resets the fulfillment fields,
reverts PROCESSING/PARTIALLY_FULFILLED to NOT_PROCESSED, appends the reason
to notes when supplied, and saves with `skip_validation=True`. -/
def cancel_issuance (s : Store) (reason : String) : Except TxnError Store :=
  let txn := s.txn
  if ¬ txn.is_in_issuance then Except.error TxnError.not_in_issuance
  else
    let t1 := { txn with
      is_in_issuance := false
      amount_fulfilled := 0
      total_cost := none
      total_pv := none }
    let t1 := { t1 with
      status :=
        if t1.status = OrderStatus.processing ∨ t1.status = OrderStatus.partially_fulfilled
        then OrderStatus.not_processed
        else t1.status }
    let t1 :=
      if reason ≠ "" then
        { t1 with notes := (t1.notes ++ "\n[Issuance Cancelled: " ++ reason ++ "]").trim }
      else t1
    match Transaction.save (some txn) true t1 with
    | Except.error e => Except.error e
    | Except.ok t2 => Except.ok { s with txn := t2, line_items := [] }

/-! Concrete instances used by the claim theorems below. -/

/-- Transaction refuting C2 as stated: `amount_fulfilled` equals `amount`
(so is ≥ it) and the status is PROCESSING, yet a save persists PROCESSING
because the legacy `amount_paid` accumulator is 0. -/
def c2tx : Transaction :=
  { tx_id := "C2TX", amount := 500000, amount_expected := some 500000,
    amount_paid := 0, amount_fulfilled := 500000, total_cost := none,
    total_pv := none, is_in_issuance := false,
    status := OrderStatus.processing, notes := "" }

/-- Transaction refuting the second bullet of C2:
`0 < amount_fulfilled < amount` with status PROCESSING, yet a save keeps
PROCESSING (again because `amount_paid` is 0). -/
def c2txPartial : Transaction :=
  { c2tx with amount_fulfilled := 200000 }

/-- Mixed-state transaction refuting C5 as stated: `amount_fulfilled` is
positive (a scan happened), so `remaining_amount` is derived from it and an
allocation leaves `remaining_amount` unchanged. -/
def c5mixed : Transaction :=
  { tx_id := "C5MIX", amount := 50000, amount_expected := some 50000,
    amount_paid := 0, amount_fulfilled := 10000, total_cost := none,
    total_pv := none, is_in_issuance := false,
    status := OrderStatus.partially_fulfilled, notes := "" }

/-- Start of the §8 allocation scenario: `amount = 5000.00`, NOT_PROCESSED. -/
def c5start : Transaction :=
  { tx_id := "C5TX", amount := 500000, amount_expected := some 500000,
    amount_paid := 0, amount_fulfilled := 0, total_cost := none,
    total_pv := none, is_in_issuance := false,
    status := OrderStatus.not_processed, notes := "" }

/-- The §8 allocation scenario: mark PROCESSING, then allocate
2000.00, 1500.00, 1500.00. -/
def c5scenario : Except TxnError Transaction := do
  let t1 ← mark_as_processing c5start none
  let t2 ← allocate_payment t1 "ORDER-1" 200000 none "2025-01-01 10:00:00"
  let t3 ← allocate_payment t2 "ORDER-2" 150000 none "2025-01-01 11:00:00"
  allocate_payment t3 "ORDER-3" 150000 none "2025-01-01 12:00:00"

/-- Line item for the C8 counterexample: quantity 2, frozen price 10.00,
frozen PV 0.10 (derived fields filled in by its first save). -/
def c8item : TransactionLineItem :=
  { id := 1, product_sku := "SKU-C8", scanned_prod_code := "PC8",
    scanned_prod_name := "Prod8", scanned_sku := "SKU-C8", scanned_sku_name := "Pack",
    scanned_price := 1000, scanned_pv := 10, quantity := 2,
    line_total := 0, line_cost := 0, line_pv := 0, scanned_by := "staff" }

/-- Product for the C8 counterexample, cost price 5.00 at scan time. -/
def c8prod : Product :=
  { prod_code := "PC8", prod_name := "Prod8", sku := "SKU-C8", sku_name := "Pack",
    current_price := 1000, cost_price := 500, current_pv := 10,
    quantity := 5, is_active := true }

/-- The same product after a later cost-price change to 7.00 (and a price
change to 12.00, which must not affect the frozen line totals). -/
def c8prodLater : Product :=
  { c8prod with cost_price := 700, current_price := 1200, current_pv := 99 }

/-- Transaction for the C4 witness: amount 2970.00, PROCESSING, holding the
issuance slot. -/
def c4txn : Transaction :=
  { tx_id := "C4TX", amount := 297000, amount_expected := some 297000,
    amount_paid := 0, amount_fulfilled := 0, total_cost := none, total_pv := none,
    is_in_issuance := true, status := OrderStatus.processing, notes := "" }

/-- Product for the C4 witness: price 2000.00, ten in stock. -/
def c4prod : Product :=
  { prod_code := "AP004E", prod_name := "Product-C4", sku := "SKU-C4",
    sku_name := "100 tablets", current_price := 200000, cost_price := 100000,
    current_pv := 1000, quantity := 10, is_active := true }

/-- Store for the C4 witness. -/
def c4store : Store :=
  { txn := c4txn, line_items := [], products := [c4prod], movements := [],
    other_in_issuance := false, next_item_id := 1 }

/-- Transaction for the C6 witness: amount 4000.00, PROCESSING, holding the
issuance slot. -/
def c6txn : Transaction :=
  { tx_id := "C6TX", amount := 400000, amount_expected := some 400000,
    amount_paid := 0, amount_fulfilled := 0, total_cost := none, total_pv := none,
    is_in_issuance := true, status := OrderStatus.processing, notes := "" }

/-- Store for the C6 witness (product priced 2000.00, so quantity 2 scans to
the exact transaction amount). -/
def c6store : Store :=
  { txn := c6txn, line_items := [], products := [c4prod], movements := [],
    other_in_issuance := false, next_item_id := 1 }

/-- Store for the C7 witness: one scanned line item, PARTIALLY_FULFILLED,
holding the issuance slot. -/
def c7store : Store :=
  { txn := { tx_id := "C7TX", amount := 500000, amount_expected := some 500000,
             amount_paid := 0, amount_fulfilled := 200000,
             total_cost := some 100000, total_pv := some 1000,
             is_in_issuance := true, status := OrderStatus.partially_fulfilled,
             notes := "" },
    line_items := [{ id := 1, product_sku := "SKU-C4", scanned_prod_code := "AP004E",
                     scanned_prod_name := "Product-C4", scanned_sku := "SKU-C4",
                     scanned_sku_name := "100 tablets", scanned_price := 200000,
                     scanned_pv := 1000, quantity := 1, line_total := 200000,
                     line_cost := 100000, line_pv := 1000, scanned_by := "staff" }],
    products := [c4prod], movements := [],
    other_in_issuance := false, next_item_id := 2 }

/-- Product referenced by the C1 store. -/
def c1prod : Product :=
  { prod_code := "AP004E", prod_name := "Product-C4", sku := "SKU-C4",
    sku_name := "100 tablets", current_price := 297000,
    cost_price := 100000, current_pv := 1000,
    quantity := 10, is_active := true }

/-- Barcode payload used by the C1 witness. -/
def c1bd : BarcodeData := { sku := some "SKU-C4", prod_code := none, quantity := 1 }

/-- Store for the C1 counterexample and witness: a transaction that became
FULFILLED by an exact-amount scan (2970.00) while still holding the issuance
slot — `complete_issuance` has not run yet. -/
def c1store : Store :=
  { txn := { tx_id := "C1TX", amount := 297000, amount_expected := some 297000,
             amount_paid := 297000, amount_fulfilled := 297000,
             total_cost := some 100000, total_pv := some 1000,
             is_in_issuance := true, status := OrderStatus.fulfilled, notes := "" },
    line_items := [{ id := 1, product_sku := "SKU-C4", scanned_prod_code := "AP004E",
                     scanned_prod_name := "Product-C4", scanned_sku := "SKU-C4",
                     scanned_sku_name := "100 tablets", scanned_price := 297000,
                     scanned_pv := 1000, quantity := 1, line_total := 297000,
                     line_cost := 100000, line_pv := 1000, scanned_by := "staff" }],
    products := [c1prod],
    movements := [], other_in_issuance := false, next_item_id := 2 }

/-- The C1 store with the issuance slot already released (e.g. after
completion): the locked transaction no longer holds the slot. -/
def c1storeOut : Store :=
  { c1store with txn := { c1store.txn with is_in_issuance := false } }

/-! SHA-256 (FIPS 180-4), as used by `hashlib.sha256(...).hexdigest()` at the
two `unique_hash` call sites (payments/tasks.py and
services/manual_payment_service.py).  Words are `Nat` reduced mod 2^32. -/

/-- Reduces a value to a 32-bit word. -/
def w32 (n : Nat) : Nat := n % 4294967296

/-- Right-rotation of a 32-bit word. -/
def rotr32 (k x : Nat) : Nat := w32 ((x >>> k) ||| (x <<< (32 - k)))

/-- The SHA-256 `Ch` function (`¬x` as XOR with the all-ones word). -/
def shaCh (x y z : Nat) : Nat := (x &&& y) ^^^ ((x ^^^ 4294967295) &&& z)

/-- The SHA-256 `Maj` function. -/
def shaMaj (x y z : Nat) : Nat := (x &&& y) ^^^ (x &&& z) ^^^ (y &&& z)

/-- The SHA-256 Σ0 function. -/
def bigSigma0 (x : Nat) : Nat := rotr32 2 x ^^^ rotr32 13 x ^^^ rotr32 22 x

/-- The SHA-256 Σ1 function. -/
def bigSigma1 (x : Nat) : Nat := rotr32 6 x ^^^ rotr32 11 x ^^^ rotr32 25 x

/-- The SHA-256 σ0 function. -/
def smallSigma0 (x : Nat) : Nat := rotr32 7 x ^^^ rotr32 18 x ^^^ (x >>> 3)

/-- The SHA-256 σ1 function. -/
def smallSigma1 (x : Nat) : Nat := rotr32 17 x ^^^ rotr32 19 x ^^^ (x >>> 10)

/-- The 64 SHA-256 round constants. -/
def shaK : List Nat :=
  [1116352408, 1899447441, 3049323471, 3921009573, 961987163, 1508970993,
   2453635748, 2870763221, 3624381080, 310598401, 607225278, 1426881987,
   1925078388, 2162078206, 2614888103, 3248222580, 3835390401, 4022224774,
   264347078, 604807628, 770255983, 1249150122, 1555081692, 1996064986,
   2554220882, 2821834349, 2952996808, 3210313671, 3336571891, 3584528711,
   113926993, 338241895, 666307205, 773529912, 1294757372, 1396182291,
   1695183700, 1986661051, 2177026350, 2456956037, 2730485921, 2820302411,
   3259730800, 3345764771, 3516065817, 3600352804, 4094571909, 275423344,
   430227734, 506948616, 659060556, 883997877, 958139571, 1322822218,
   1537002063, 1747873779, 1955562222, 2024104815, 2227730452, 2361852424,
   2428436474, 2756734187, 3204031479, 3329325298]

/-- The SHA-256 initial hash value. -/
def shaH0 : List Nat :=
  [1779033703, 3144134277, 1013904242, 2773480762,
   1359893119, 2600822924, 528734635, 1541459225]

/-- A 64-bit big-endian length encoding (8 bytes). -/
def be64 (n : Nat) : List Nat :=
  [(n >>> 56) % 256, (n >>> 48) % 256, (n >>> 40) % 256, (n >>> 32) % 256,
   (n >>> 24) % 256, (n >>> 16) % 256, (n >>> 8) % 256, n % 256]

/-- SHA-256 padding: append 128, zero bytes to 56 mod 64, then the bit
length as 8 big-endian bytes. -/
def padMessage (msg : List Nat) : List Nat :=
  msg ++ [128] ++ List.replicate ((64 - (msg.length + 9) % 64) % 64) 0 ++
    be64 (8 * msg.length)

/-- Splits a byte list into 64-byte blocks (fuel-bounded; any fuel at least
the list length suffices). -/
def chunk64 : Nat → List Nat → List (List Nat)
  | _, [] => []
  | 0, _ => []
  | fuel + 1, l => l.take 64 :: chunk64 fuel (l.drop 64)

/-- The i-th big-endian 32-bit word of a 64-byte block. -/
def be32At (b : List Nat) (i : Nat) : Nat :=
  (b.getD (4 * i) 0) <<< 24 ||| (b.getD (4 * i + 1) 0) <<< 16 |||
    (b.getD (4 * i + 2) 0) <<< 8 ||| b.getD (4 * i + 3) 0

/-- The first 16 words of the message schedule. -/
def initWords (b : List Nat) : List Nat := (List.range 16).map (be32At b)

/-- Extends the message schedule by `k` more words. -/
def extendWords : Nat → List Nat → List Nat
  | 0, ws => ws
  | k + 1, ws =>
      let i := ws.length
      let w := w32 (smallSigma1 (ws.getD (i - 2) 0) + ws.getD (i - 7) 0 +
        smallSigma0 (ws.getD (i - 15) 0) + ws.getD (i - 16) 0)
      extendWords k (ws ++ [w])

/-- One SHA-256 round on the eight-word working state. -/
def shaRound (st : List Nat) (kw : Nat × Nat) : List Nat :=
  let a := st.getD 0 0
  let b := st.getD 1 0
  let c := st.getD 2 0
  let d := st.getD 3 0
  let e := st.getD 4 0
  let f := st.getD 5 0
  let g := st.getD 6 0
  let h := st.getD 7 0
  let t1 := w32 (h + bigSigma1 e + shaCh e f g + kw.1 + kw.2)
  let t2 := w32 (bigSigma0 a + shaMaj a b c)
  [w32 (t1 + t2), a, b, c, w32 (d + t1), e, f, g]

/-- Compresses one 64-byte block into the running hash value. -/
def compressBlock (H : List Nat) (block : List Nat) : List Nat :=
  let ws := extendWords 48 (initWords block)
  let st := (shaK.zip ws).foldl shaRound H
  List.zipWith (fun x y => w32 (x + y)) H st

/-- The eight 32-bit words of the SHA-256 digest of a byte string. -/
def sha256Words (msg : List Nat) : List Nat :=
  (chunk64 (padMessage msg).length (padMessage msg)).foldl compressBlock shaH0

/-- The sixteen lowercase hex digits. -/
def hexCharList : List Char :=
  (List.range 10).map (fun d => Char.ofNat (48 + d)) ++
    (List.range 6).map (fun d => Char.ofNat (97 + d))

/-- The lowercase hex digit of `n mod 16`. -/
def hexDigitChar (n : Nat) : Char := hexCharList.getD (n % 16) '0'

/-- The eight hex characters of a 32-bit word, most significant first. -/
def word2hex (w : Nat) : List Char :=
  [28, 24, 20, 16, 12, 8, 4, 0].map (fun s => hexDigitChar (w >>> s))

/-- Embeds `hashlib.sha256(bytes).hexdigest()`. -/
def sha256_hexdigest (msg : List Nat) : String :=
  String.mk ((sha256Words msg).bind word2hex)

/-- UTF-8 encoding of one character (what Python's `str.encode()` emits). -/
def utf8Bytes (c : Char) : List Nat :=
  let n := c.toNat
  if n < 128 then [n]
  else if n < 2048 then [192 ||| (n >>> 6), 128 ||| (n &&& 63)]
  else if n < 65536 then
    [224 ||| (n >>> 12), 128 ||| ((n >>> 6) &&& 63), 128 ||| (n &&& 63)]
  else
    [240 ||| (n >>> 18), 128 ||| ((n >>> 12) &&& 63), 128 ||| ((n >>> 6) &&& 63),
     128 ||| (n &&& 63)]

/-- Embeds Python `str.encode()` (UTF-8). -/
def encodeUtf8 (s : String) : List Nat := s.data.bind utf8Bytes

/-- Embeds the `unique_hash` computation of `process_raw_message`
(payments/tasks.py): `sha256(f"{tx_id}|{amount}|{timestamp}".encode())`, with
`amount` and `timestamp` taken as their serialized strings. -/
def process_raw_message_unique_hash (tx_id amount timestamp : String) : String :=
  sha256_hexdigest (encodeUtf8 (tx_id ++ "|" ++ amount ++ "|" ++ timestamp))

/-- Embeds `ManualPaymentService._generate_unique_hash`:
`sha256(f"{tx_id}{sender_name}{amount}{timestamp}".encode())` — four fields,
no separators. -/
def generate_unique_hash (tx_id sender_name amount timestamp : String) : String :=
  sha256_hexdigest (encodeUtf8 (tx_id ++ sender_name ++ amount ++ timestamp))

/-! The M-Pesa SMS parsing layer (payments/parsers.py).

The three `PATTERNS` regexes are embedded as token lists over a small regex
language (literal characters, single-character classes with `{m,n}`-style
greedy or lazy repetition, and named-group markers), and matched with a
backtracking matcher implementing `re.match` semantics: anchored at the
start, first match in backtracking order wins, the rest of the string is
ignored.  All characters involved are ASCII, where Python's `\w`, `\d`,
`\s` coincide with the classes below. -/

/-- A token of the embedded regex language. -/
inductive RTok where
  | lit : Char → RTok
  | cls : (Char → Bool) → Nat → Option Nat → Bool → RTok
  | openG : String → RTok
  | closeG : String → RTok

/-- Counts the leading characters satisfying `p`. -/
def countLeading (p : Char → Bool) : List Char → Nat
  | [] => 0
  | c :: cs => if p c then countLeading p cs + 1 else 0

/-- Candidate repetition counts between `lo` and `hi`, in the order a
backtracking engine tries them: minimal-first when lazy, maximal-first when
greedy. -/
def candList (lo hi : Nat) (lz : Bool) : List Nat :=
  if lo > hi then []
  else
    let asc := (List.range (hi - lo + 1)).map (fun k => k + lo)
    if lz then asc else asc.reverse

mutual

/-- The backtracking matcher.  `cs` is the remaining input, `pos` the number
of characters consumed, `stack` the open-group positions, `caps` the captures
so far, `full` the whole input.  Fuel decreases on every step; any
sufficiently large fuel gives `re.match` semantics. -/
def matchToks : Nat → List RTok → List Char → Nat → List (String × Nat) →
    List (String × String) → List Char → Option (List (String × String))
  | 0, _, _, _, _, _, _ => none
  | _ + 1, [], _, _, _, caps, _ => some caps
  | fuel + 1, RTok.lit c :: ts, cs, pos, stack, caps, full =>
      match cs with
      | [] => none
      | x :: rest =>
          if x = c then matchToks fuel ts rest (pos + 1) stack caps full else none
  | fuel + 1, RTok.cls p lo hi? lz :: ts, cs, pos, stack, caps, full =>
      let avail := countLeading p cs
      let hi := match hi? with | some m => min m avail | none => avail
      tryCands fuel ts cs pos stack caps full (candList lo hi lz)
  | fuel + 1, RTok.openG name :: ts, cs, pos, stack, caps, full =>
      matchToks fuel ts cs pos ((name, pos) :: stack) caps full
  | fuel + 1, RTok.closeG _ :: ts, cs, pos, stack, caps, full =>
      match stack with
      | [] => none
      | (nm, start) :: stack2 =>
          matchToks fuel ts cs pos stack2
            (caps ++ [(nm, String.mk ((full.drop start).take (pos - start)))]) full

/-- Tries each candidate repetition count in order, backtracking into the
next on failure of the rest of the pattern. -/
def tryCands : Nat → List RTok → List Char → Nat → List (String × Nat) →
    List (String × String) → List Char → List Nat → Option (List (String × String))
  | 0, _, _, _, _, _, _, _ => none
  | _ + 1, _, _, _, _, _, _, [] => none
  | fuel + 1, ts, cs, pos, stack, caps, full, k :: ks =>
      match matchToks fuel ts (cs.drop k) (pos + k) stack caps full with
      | some r => some r
      | none => tryCands fuel ts cs pos stack caps full ks

end

/-- Embeds `re.match(pattern, raw_text)`: anchored at position 0. -/
def reMatch (toks : List RTok) (s : String) : Option (List (String × String)) :=
  matchToks 1000000 toks s.data 0 [] [] s.data

/-- Python's `\s` on ASCII input. -/
def isSpaceChar (c : Char) : Bool :=
  c == ' ' || c == '\t' || c == '\n' || c == '\r' || c == '\x0b' || c == '\x0c'

/-- Python's `\d` on ASCII input. -/
def isDigitChar (c : Char) : Bool := c.isDigit

/-- Python's `\w` on ASCII input. -/
def isWordChar (c : Char) : Bool := c.isAlphanum || c == '_'

/-- A sequence of literal-character tokens. -/
def litToks (s : String) : List RTok := s.data.map RTok.lit

/-- The `buy_goods_till` regex:
`(?P<tx_id>\w+)\s+Confirmed\.?\s*You have received Ksh\s*(?P<amount>[\d,]+\.\d{2})\s+from\s+(?P<sender_name>[A-Za-z\s]+?)\s+(?P<sender_phone>\d{10})\s+on\s+(?P<date>\d{1,2}/\d{1,2}/\d{2,4})\s+at\s+(?P<time>\d{1,2}:\d{2}\s*[AP]M)`. -/
def tillToks : List RTok :=
  [RTok.openG "tx_id", RTok.cls isWordChar 1 none false, RTok.closeG "tx_id",
   RTok.cls isSpaceChar 1 none false] ++
  litToks "Confirmed" ++
  [RTok.cls (fun c => c == '.') 0 (some 1) false,
   RTok.cls isSpaceChar 0 none false] ++
  litToks "You have received Ksh" ++
  [RTok.cls isSpaceChar 0 none false,
   RTok.openG "amount",
   RTok.cls (fun c => isDigitChar c || c == ',') 1 none false,
   RTok.lit '.', RTok.cls isDigitChar 2 (some 2) false,
   RTok.closeG "amount",
   RTok.cls isSpaceChar 1 none false] ++
  litToks "from" ++
  [RTok.cls isSpaceChar 1 none false,
   RTok.openG "sender_name",
   RTok.cls (fun c => c.isAlpha || isSpaceChar c) 1 none true,
   RTok.closeG "sender_name",
   RTok.cls isSpaceChar 1 none false,
   RTok.openG "sender_phone", RTok.cls isDigitChar 10 (some 10) false,
   RTok.closeG "sender_phone",
   RTok.cls isSpaceChar 1 none false] ++
  litToks "on" ++
  [RTok.cls isSpaceChar 1 none false,
   RTok.openG "date",
   RTok.cls isDigitChar 1 (some 2) false, RTok.lit '/',
   RTok.cls isDigitChar 1 (some 2) false, RTok.lit '/',
   RTok.cls isDigitChar 2 (some 4) false,
   RTok.closeG "date",
   RTok.cls isSpaceChar 1 none false] ++
  litToks "at" ++
  [RTok.cls isSpaceChar 1 none false,
   RTok.openG "time",
   RTok.cls isDigitChar 1 (some 2) false, RTok.lit ':',
   RTok.cls isDigitChar 2 (some 2) false,
   RTok.cls isSpaceChar 0 none false,
   RTok.cls (fun c => c == 'A' || c == 'P') 1 (some 1) false,
   RTok.lit 'M',
   RTok.closeG "time"]

/-- The `paybill_received` regex: the till regex followed by
`\s+for account\s+(?P<account_number>\w+)`. -/
def paybillToks : List RTok :=
  tillToks ++
  [RTok.cls isSpaceChar 1 none false] ++
  litToks "for account" ++
  [RTok.cls isSpaceChar 1 none false,
   RTok.openG "account_number", RTok.cls isWordChar 1 none false,
   RTok.closeG "account_number"]

/-- The `buy_goods_till_variant` regex:
`(?P<tx_id>\w+)\s+Confirmed\.?\s*Ksh\s*(?P<amount>[\d,]+\.\d{2})\s+received from\s+(?P<sender_name>[A-Za-z\s]+?)\s*-?\s*(?P<sender_phone>\d{10})\s+on\s+(?P<date>…)\s+at\s+(?P<time>…)` with the same date/time tails. -/
def variantToks : List RTok :=
  [RTok.openG "tx_id", RTok.cls isWordChar 1 none false, RTok.closeG "tx_id",
   RTok.cls isSpaceChar 1 none false] ++
  litToks "Confirmed" ++
  [RTok.cls (fun c => c == '.') 0 (some 1) false,
   RTok.cls isSpaceChar 0 none false] ++
  litToks "Ksh" ++
  [RTok.cls isSpaceChar 0 none false,
   RTok.openG "amount",
   RTok.cls (fun c => isDigitChar c || c == ',') 1 none false,
   RTok.lit '.', RTok.cls isDigitChar 2 (some 2) false,
   RTok.closeG "amount",
   RTok.cls isSpaceChar 1 none false] ++
  litToks "received from" ++
  [RTok.cls isSpaceChar 1 none false,
   RTok.openG "sender_name",
   RTok.cls (fun c => c.isAlpha || isSpaceChar c) 1 none true,
   RTok.closeG "sender_name",
   RTok.cls isSpaceChar 0 none false,
   RTok.cls (fun c => c == '-') 0 (some 1) false,
   RTok.cls isSpaceChar 0 none false,
   RTok.openG "sender_phone", RTok.cls isDigitChar 10 (some 10) false,
   RTok.closeG "sender_phone",
   RTok.cls isSpaceChar 1 none false] ++
  litToks "on" ++
  [RTok.cls isSpaceChar 1 none false,
   RTok.openG "date",
   RTok.cls isDigitChar 1 (some 2) false, RTok.lit '/',
   RTok.cls isDigitChar 1 (some 2) false, RTok.lit '/',
   RTok.cls isDigitChar 2 (some 4) false,
   RTok.closeG "date",
   RTok.cls isSpaceChar 1 none false] ++
  litToks "at" ++
  [RTok.cls isSpaceChar 1 none false,
   RTok.openG "time",
   RTok.cls isDigitChar 1 (some 2) false, RTok.lit ':',
   RTok.cls isDigitChar 2 (some 2) false,
   RTok.cls isSpaceChar 0 none false,
   RTok.cls (fun c => c == 'A' || c == 'P') 1 (some 1) false,
   RTok.lit 'M',
   RTok.closeG "time"]

/-- Splitting a character list at every separator character (the behaviour
of Python `str.split(sep)` for a one-character separator, empty pieces
kept). -/
def splitChars (p : Char → Bool) : List Char → List (List Char)
  | [] => [[]]
  | c :: rest =>
      let gs := splitChars p rest
      if p c then [] :: gs
      else
        match gs with
        | g :: tl => (c :: g) :: tl
        | [] => [[c]]

/-- Accumulator for `charsToNat?`. -/
def charsToNatAux : Nat → List Char → Option Nat
  | acc, [] => some acc
  | acc, c :: rest =>
      if isDigitChar c then charsToNatAux (10 * acc + (c.toNat - 48)) rest
      else none

/-- `int(...)` on a digit string: `none` unless the list is a non-empty run
of decimal digits. -/
def charsToNat? : List Char → Option Nat
  | [] => none
  | c :: rest => charsToNatAux 0 (c :: rest)

/-- Python `str.strip()`: whitespace removed from both ends. -/
def trimChars (l : List Char) : List Char :=
  ((l.dropWhile isSpaceChar).reverse.dropWhile isSpaceChar).reverse

/-- Python `str.split()` with no argument: split on whitespace runs,
discarding empty pieces. -/
def pySplitWs (s : String) : List String :=
  ((splitChars isSpaceChar s.data).filter (fun g => g ≠ [])).map String.mk

/-- Python `' '.join(groups)` over character-list pieces. -/
def joinWs (gs : List (List Char)) : String :=
  String.mk (List.intercalate [' '] gs)

/-- Embeds `normalize_amount`: strips commas and parses the decimal as a
number (`float` in the source; cents here — the pattern guarantees exactly
two fraction digits).  `none` models a `ValueError` escaping (e.g. an
all-comma match). -/
def normalize_amount (s : String) : Option Nat :=
  let l := s.data.filter (fun c => c ≠ ',')
  match splitChars (fun c => c == '.') l with
  | [ip, fp] =>
      if fp.length = 2 then
        match charsToNat? ip, charsToNat? fp with
        | some i, some f => some (i * 100 + f)
        | _, _ => none
      else none
  | _ => none

/-- A naive local datetime as `datetime.strptime` produces (seconds are
always zero for the `'%d/%m/%Y %I:%M %p'` format). -/
structure PyDateTime where
  year : Nat
  month : Nat
  day : Nat
  hour : Nat
  minute : Nat
deriving DecidableEq, Repr

/-- Embeds `normalize_timestamp`: expands a two-digit year to the 2000s
(`date_str[:-2] + '20' + date_str[-2:]`), then parses
`'%d/%m/%Y %I:%M %p'` the way `strptime` does (the format's space matches
one-or-more whitespace; `%I` is 01–12 with 12 AM mapped to hour 0 and
12 PM to 12).  `none` models a `ValueError` escaping; the day-of-month
check is the simple `1..31` bound rather than strptime's full calendar
check, which no verified property depends on. -/
def normalize_timestamp (date_str time_str : String) : Option PyDateTime :=
  match splitChars (fun c => c == '/') date_str.data with
  | [d, m, y] =>
      let y2 := if y.length = 2 then '2' :: '0' :: y else y
      match (splitChars isSpaceChar time_str.data).filter (fun g => g ≠ []) with
      | [hm, ap] =>
          match splitChars (fun c => c == ':') hm with
          | [hh, mi] =>
              match charsToNat? d, charsToNat? m, charsToNat? y2,
                    charsToNat? hh, charsToNat? mi with
              | some dd, some mm, some yy, some h12, some minu =>
                  if 1 ≤ dd ∧ dd ≤ 31 ∧ 1 ≤ mm ∧ mm ≤ 12 ∧ 1 ≤ h12 ∧ h12 ≤ 12 ∧
                     minu ≤ 59 ∧ (ap = "AM".data ∨ ap = "PM".data) then
                    some { year := yy, month := mm, day := dd,
                           hour := if ap = "PM".data then
                                     (if h12 = 12 then 12 else h12 + 12)
                                   else (if h12 = 12 then 0 else h12),
                           minute := minu }
                  else none
              | _, _, _, _, _ => none
          | _ => none
      | _ => none
  | _ => none

/-- The structured payment fact a successful parse returns (the dict built by
`parse_standard_receipt`/`parse_paybill_receipt`; `amount` is in cents,
`confidence` in hundredths). -/
structure ParsedSms where
  tx_id : String
  amount : Nat
  sender_name : String
  sender_phone : String
  timestamp : PyDateTime
  gateway_type : String
  confidence : Nat
  destination_number : Option String
deriving DecidableEq, Repr

/-- The two shapes `parse_mpesa_sms` returns: a parsed fact, or the
zero-confidence dict carrying the original text. -/
inductive ParseOutcome where
  | parsed : ParsedSms → ParseOutcome
  | noMatch : String → ParseOutcome
deriving DecidableEq, Repr

/-- The `confidence` entry of a parse outcome (`0` for the no-match dict). -/
def ParseOutcome.confidence : ParseOutcome → Nat
  | .parsed p => p.confidence
  | .noMatch _ => 0

/-- Looks up a named capture (`match.groupdict()[k]`). -/
def lookupCap (caps : List (String × String)) (k : String) : Option String :=
  (caps.find? (fun kv => decide (kv.1 = k))).map (fun kv => kv.2)

/-- Embeds `parse_standard_receipt`: till result with confidence 0.90 and a
whitespace-normalized sender name (`' '.join(name.strip().split())`). -/
def parse_standard_receipt (caps : List (String × String)) : Option ParsedSms := do
  let txId ← lookupCap caps "tx_id"
  let amountStr ← lookupCap caps "amount"
  let nameStr ← lookupCap caps "sender_name"
  let phone ← lookupCap caps "sender_phone"
  let dateStr ← lookupCap caps "date"
  let timeStr ← lookupCap caps "time"
  let amount ← normalize_amount amountStr
  let ts ← normalize_timestamp dateStr (String.mk (trimChars timeStr.data))
  pure { tx_id := txId, amount := amount,
         sender_name :=
           joinWs ((splitChars isSpaceChar (trimChars nameStr.data)).filter
             (fun g => g ≠ [])),
         sender_phone := phone, timestamp := ts,
         gateway_type := "till", confidence := 90, destination_number := none }

/-- Embeds `parse_paybill_receipt`: the standard result re-tagged paybill
with confidence 0.95 and the captured destination account. -/
def parse_paybill_receipt (caps : List (String × String)) : Option ParsedSms := do
  let base ← parse_standard_receipt caps
  let acct ← lookupCap caps "account_number"
  pure { base with gateway_type := "paybill", confidence := 95,
                   destination_number := some acct }

/-- One entry of the `PATTERNS` list: name, regex, and the name of the
extraction function it dispatches to (`globals()[pattern['parser']]`). -/
structure SmsPattern where
  name : String
  regexToks : List RTok
  parserFn : String

/-- The `PATTERNS` list, in source order: the two till patterns sandwich the
paybill pattern. -/
def PATTERNS : List SmsPattern :=
  [{ name := "buy_goods_till", regexToks := tillToks,
     parserFn := "parse_standard_receipt" },
   { name := "paybill_received", regexToks := paybillToks,
     parserFn := "parse_paybill_receipt" },
   { name := "buy_goods_till_variant", regexToks := variantToks,
     parserFn := "parse_standard_receipt" }]

/-- The `for pattern in PATTERNS` loop: first pattern whose regex matches
wins. -/
def runPatterns : List SmsPattern → String → Option (SmsPattern × List (String × String))
  | [], _ => none
  | pat :: rest, s =>
      match reMatch pat.regexToks s with
      | some caps => some (pat, caps)
      | none => runPatterns rest s

/-- Embeds `parse_mpesa_sms`.  The outer `Option` models an exception
escaping the extraction functions (`float`/`strptime` failures); `some`
carries the returned dict. -/
def parse_mpesa_sms (raw_text : String) : Option ParseOutcome :=
  match runPatterns PATTERNS raw_text with
  | some (pat, caps) =>
      (if pat.parserFn = "parse_paybill_receipt" then parse_paybill_receipt caps
       else parse_standard_receipt caps).map ParseOutcome.parsed
  | none => some (ParseOutcome.noMatch raw_text)

/-- Zero-padded two-digit rendering. -/
def pad2 (n : Nat) : String := if n < 10 then "0" ++ toString n else toString n

/-- Python `str()` of the parsed float amount (cents in this model).  The
parser's amounts have at most two decimals, which this reproduces; no
verified property depends on the exact rendering. -/
def pyFloatRepr (cents : Nat) : String :=
  let ip := toString (cents / 100)
  let fp := cents % 100
  if fp = 0 then ip ++ ".0"
  else if fp % 10 = 0 then ip ++ "." ++ toString (fp / 10)
  else ip ++ "." ++ pad2 fp

/-- Python `str()` of the parsed datetime (seconds always zero for this
format); no verified property depends on the exact rendering. -/
def pyDatetimeRepr (t : PyDateTime) : String :=
  toString t.year ++ "-" ++ pad2 t.month ++ "-" ++ pad2 t.day ++ " " ++
    pad2 t.hour ++ ":" ++ pad2 t.minute ++ ":00"

/-- The `RawMessage` row as `process_raw_message` sees it. -/
structure RawMsg where
  raw_text : String
  processed : Bool
  transaction_link : Option String
deriving DecidableEq, Repr

/-- The Transaction row `process_raw_message` creates (fields of the
`Transaction.objects.create` call in payments/tasks.py). -/
structure TaskTxn where
  tx_id : String
  amount : Nat
  sender_name : String
  sender_phone : String
  timestamp : PyDateTime
  gateway : String
  gateway_type : String
  destination_number : String
  confidence : Nat
  unique_hash : String
  amount_expected : Nat
deriving DecidableEq, Repr

/-- The slice of state `process_raw_message` reads and writes: the message,
its device's gateway (by name; `none` when the device has no gateway
assigned), and the transaction table (only `unique_hash` uniqueness
matters). -/
structure TaskState where
  msg : RawMsg
  device_gateway : Option String
  transactions : List TaskTxn
deriving DecidableEq, Repr

/-- Embeds `process_raw_message` (payments/tasks.py).  Already-processed
messages are a no-op; sub-threshold parses (confidence ≤ 0.8) only log; a
confident parse computes the unique hash, then — inside the atomic block —
bails out before creating anything when the device has no gateway; otherwise
it creates the transaction and links/marks the message, falling back to
linking the existing transaction on a duplicate-hash integrity error.  A
parser exception (`none` from `parse_mpesa_sms`) is caught by the outer
`except` and leaves the state unchanged. -/
def process_raw_message (s : TaskState) : TaskState :=
  if s.msg.processed then s
  else
    match parse_mpesa_sms s.msg.raw_text with
    | none => s
    | some outcome =>
      if outcome.confidence > 80 then
        match outcome with
        | ParseOutcome.noMatch _ => s
        | ParseOutcome.parsed d =>
          let unique_hash := sha256_hexdigest (encodeUtf8
            (d.tx_id ++ "|" ++ pyFloatRepr d.amount ++ "|" ++ pyDatetimeRepr d.timestamp))
          match s.device_gateway with
          | none => s
          | some gw =>
            if s.transactions.any (fun t => t.unique_hash == unique_hash) then
              { s with
                msg := { s.msg with
                         processed := true
                         transaction_link := some unique_hash } }
            else
              { s with
                transactions := s.transactions ++
                  [{ tx_id := d.tx_id, amount := d.amount,
                     sender_name := d.sender_name, sender_phone := d.sender_phone,
                     timestamp := d.timestamp, gateway := gw, gateway_type := gw,
                     destination_number := d.destination_number.getD "",
                     confidence := d.confidence, unique_hash := unique_hash,
                     amount_expected := d.amount }]
                msg := { s.msg with
                         processed := true
                         transaction_link := some unique_hash } }
      else s

/-- A paybill-format SMS: the C9 failing input. -/
def c9paybillText : String :=
  "ABC123 Confirmed. You have received Ksh 2,970.00 from JOHN DOE 0712345678 on 1/1/24 at 1:00 PM for account ACC9"

/-- A till-format SMS (confidence 0.90 when parsed). -/
def c10tillText : String :=
  "ABC123 Confirmed. You have received Ksh 2,970.00 from JOHN DOE 0712345678 on 1/1/24 at 1:00 PM"

/-- The parsed fact `parse_mpesa_sms` produces for `c10tillText` (and, via
the shadowing till pattern, for `c9paybillText` as well). -/
def c9tillParsed : ParsedSms :=
  { tx_id := "ABC123", amount := 297000, sender_name := "JOHN DOE",
    sender_phone := "0712345678",
    timestamp := { year := 2024, month := 1, day := 1, hour := 13, minute := 0 },
    gateway_type := "till", confidence := 90, destination_number := none }

/-- Task state for the C10 witness: an unprocessed confident message whose
device has no gateway. -/
def c10state : TaskState :=
  { msg := { raw_text := c10tillText, processed := false, transaction_link := none },
    device_gateway := none, transactions := [] }

/-! Claim C2 — auto-transitions on save.

The source keys the auto-transition block on the legacy `amount_paid`
field, not on `amount_fulfilled` as the claim states. -/



/-- C2 counterexample: both saves succeed and persist status PROCESSING,
even though `amount_fulfilled ≥ amount` (first) resp.
`0 < amount_fulfilled < amount` (second) with current status PROCESSING —
so neither FULFILLED nor PARTIALLY_FULFILLED is forced as the claim states. -/
theorem c2_counterexample :
    Transaction.save (some c2tx) false c2tx = Except.ok c2tx ∧
    c2tx.amount_fulfilled ≥ c2tx.amount ∧
    c2tx.status = OrderStatus.processing ∧
    Transaction.save (some c2txPartial) false c2txPartial = Except.ok c2txPartial ∧
    0 < c2txPartial.amount_fulfilled ∧
    c2txPartial.amount_fulfilled < c2txPartial.amount ∧
    c2txPartial.status = OrderStatus.processing := by
  refine ⟨by rfl, by decide, by rfl, by rfl, by decide, by decide, by rfl⟩

/-- C2 amended: the auto-transition block of `Transaction.save` is keyed on
the legacy `amount_paid` field, not on `amount_fulfilled`.  For every
validated save: if `amount_paid ≥ amount` and the current status is
PROCESSING or PARTIALLY_FULFILLED, the persisted status is FULFILLED and
`amount_paid` (not `amount_fulfilled`) is clamped to exactly `amount`, with
`amount_fulfilled` left untouched; else if `0 < amount_paid < amount` and the
current status is PROCESSING, the persisted status is PARTIALLY_FULFILLED. -/
theorem c2_amended (old : Option Transaction) (t : Transaction)
    (hclean : Transaction.clean old t = Except.ok ())
    (hcc : t.amount_fulfilled ≤ t.amount) :
    (t.amount_paid ≥ t.amount →
      (t.status = OrderStatus.processing ∨ t.status = OrderStatus.partially_fulfilled) →
      Transaction.save old false t =
        Except.ok { t with status := OrderStatus.fulfilled, amount_paid := t.amount }) ∧
    (0 < t.amount_paid → t.amount_paid < t.amount → t.status = OrderStatus.processing →
      Transaction.save old false t =
        Except.ok { t with status := OrderStatus.partially_fulfilled }) := by
  constructor
  · intro hge hst
    simp only [Transaction.save, hclean, Bool.not_false, if_true, bind, Except.bind]
    rw [if_pos hge, if_pos hst]
    simp [lt_irrefl, pure, Except.pure, (by omega : ¬ t.amount_fulfilled > t.amount)]
    omega
  · intro hpos hlt hst
    simp only [Transaction.save, hclean, Bool.not_false, if_true, bind, Except.bind]
    rw [if_neg (by omega : ¬ t.amount_paid ≥ t.amount), if_pos hpos, if_pos hst]
    simp [pure, Except.pure, (by omega : ¬ t.amount_fulfilled > t.amount),
      (by omega : ¬ t.amount_paid ≥ t.amount)]
    omega

/-! Claim C5 — payment allocation.

`allocate_payment` increments the legacy `amount_paid` accumulator while
`remaining_amount` is derived from `amount_fulfilled` whenever that field is
positive, so the claimed "decreases remaining_amount by exactly amount" only
holds on the pure allocation flow (`amount_fulfilled = 0`). -/

/-- Helper: `Transaction.clean` succeeds whenever the status is unchanged and
`amount_paid` does not exceed `amount`. -/
theorem clean_ok_same_status (t t2 : Transaction) (hst : t2.status = t.status)
    (hle : t2.amount_paid ≤ t2.amount) :
    Transaction.clean (some t) t2 = Except.ok () := by
  simp [Transaction.clean, hst, (by omega : ¬ t2.amount_paid > t2.amount)]
  omega


/-- C5 counterexample: on an unlocked transaction with
`amount_fulfilled = 100.00 > 0` and `remaining_amount = 400.00`, allocating
50.00 succeeds but leaves `remaining_amount` at 400.00 — it does not decrease
by the allocated amount as the claim states. -/
theorem c5_counterexample :
    c5mixed.is_locked = false ∧
    c5mixed.remaining_amount = 40000 ∧
    (allocate_payment c5mixed "ORDER-X" 5000 none "2024-01-01 10:00:00").map
        Transaction.remaining_amount = Except.ok 40000 := by
  exact ⟨by rfl, by decide, by rfl⟩



/-- C5 amended: `allocate_payment` on an unlocked transaction requires
`amount > 0` (else a validation error) and `amount ≤ remaining_amount` (else
`InsufficientAmount`), and on success increments the legacy `amount_paid`
accumulator by exactly `amount`.  `remaining_amount` decreases by exactly
`amount` when `amount_fulfilled = 0` (the pure allocation flow); when
`amount_fulfilled > 0` it is derived from `amount_fulfilled` and allocation
need not decrease it (see the counterexample).  The 2000/1500/1500 scenario
against 5000.00 reaches `remaining_amount = 0.00`, status FULFILLED and
locked, and any further positive allocation fails with `TransactionLocked`. -/
theorem c5_amended (t : Transaction) (order_id : String) (amount : Int)
    (notes : Option String) (now : String)
    (hlock : t.is_locked = false) (hful : t.amount_fulfilled = 0)
    (hpaid : 0 ≤ t.amount_paid) :
    (amount ≤ 0 →
      allocate_payment t order_id amount notes now =
        Except.error TxnError.validation_amount) ∧
    (0 < amount → t.remaining_amount < amount →
      allocate_payment t order_id amount notes now =
        Except.error TxnError.insufficient_amount) ∧
    (0 < amount → amount ≤ t.remaining_amount →
      ∃ t', allocate_payment t order_id amount notes now = Except.ok t' ∧
        t'.amount_paid = t.amount_paid + amount ∧
        t'.remaining_amount = t.remaining_amount - amount) ∧
    (c5scenario.map Transaction.remaining_amount = Except.ok 0 ∧
     c5scenario.map Transaction.status = Except.ok OrderStatus.fulfilled ∧
     c5scenario.map Transaction.is_locked = Except.ok true ∧
     ∀ x : Int, 0 < x →
       c5scenario.bind
           (fun t4 => allocate_payment t4 "ORDER-4" x none "2025-01-01 13:00:00") =
         Except.error TxnError.transaction_locked) := by
  have hrem : t.remaining_amount = t.amount - t.amount_paid := by
    simp [Transaction.remaining_amount, hlock, hful]
  refine ⟨?_, ?_, ?_, by rfl, by rfl, by rfl, fun x hx => rfl⟩
  · intro hle
    simp [allocate_payment, hlock, hle]
  · intro hpos hgt
    simp only [allocate_payment, hlock, Bool.false_eq_true, if_false]
    rw [if_neg (by omega : ¬ amount ≤ 0), if_pos (by omega : amount > t.remaining_amount)]
  · intro hpos hle
    simp only [allocate_payment, hlock, Bool.false_eq_true, if_false]
    rw [if_neg (by omega : ¬ amount ≤ 0), if_neg (by omega : ¬ amount > t.remaining_amount)]
    have hA : 0 < t.amount := by omega
    generalize (appendNote t.notes
      ((match notes with
        | some n => "[" ++ now ++ "] Allocated " ++ toString amount ++
            " to order " ++ order_id ++ " - " ++ n
        | none => "[" ++ now ++ "] Allocated " ++ toString amount ++
            " to order " ++ order_id))) = ns
    have hclean : Transaction.clean (some t)
        { t with amount_paid := t.amount_paid + amount, notes := ns } = Except.ok () := by
      apply clean_ok_same_status <;> simp <;> omega
    simp only [Transaction.save, Bool.not_false, if_true, hclean]
    clear hclean
    cases ht : t.status with
    | fulfilled => simp [Transaction.is_locked, ht] at hlock
    | cancelled => simp [Transaction.is_locked, ht] at hlock
    | not_processed =>
        simp only [hful]
        simp
        split_ifs <;>
          first
          | (exfalso; tauto)
          | (exfalso; (try simp at *); (try omega); done)
          | (refine ⟨_, rfl, ?_, ?_⟩ <;>
              simp [Transaction.remaining_amount, Transaction.is_locked, ht, hlock, hful] <;>
              omega)
    | processing =>
        simp only [hful]
        simp
        split_ifs <;>
          first
          | (exfalso; tauto)
          | (exfalso; (try simp at *); (try omega); done)
          | (refine ⟨_, rfl, ?_, ?_⟩ <;>
              simp [Transaction.remaining_amount, Transaction.is_locked, ht, hlock, hful] <;>
              omega)
    | partially_fulfilled =>
        simp only [hful]
        simp
        split_ifs <;>
          first
          | (exfalso; tauto)
          | (exfalso; (try simp at *); (try omega); done)
          | (refine ⟨_, rfl, ?_, ?_⟩ <;>
              simp [Transaction.remaining_amount, Transaction.is_locked, ht, hlock, hful] <;>
              omega)

/-- Witness for `c5_amended`: a concrete unlocked transaction with
`amount = 3000.00`, allocating 1000.00. -/
theorem c5_amended_witness :
    ∃ t', allocate_payment
        { tx_id := "C5W", amount := 300000, amount_expected := some 300000,
          amount_paid := 0, amount_fulfilled := 0, total_cost := none,
          total_pv := none, is_in_issuance := false,
          status := OrderStatus.processing, notes := "" }
        "ORD-W" 100000 none "2025-02-02 09:00:00" = Except.ok t' ∧
      t'.amount_paid =
        ({ tx_id := "C5W", amount := 300000, amount_expected := some 300000,
           amount_paid := 0, amount_fulfilled := 0, total_cost := none,
           total_pv := none, is_in_issuance := false,
           status := OrderStatus.processing, notes := "" } : Transaction).amount_paid
          + 100000 ∧
      t'.remaining_amount =
        ({ tx_id := "C5W", amount := 300000, amount_expected := some 300000,
           amount_paid := 0, amount_fulfilled := 0, total_cost := none,
           total_pv := none, is_in_issuance := false,
           status := OrderStatus.processing, notes := "" } : Transaction).remaining_amount
          - 100000 :=
  (c5_amended _ "ORD-W" 100000 none "2025-02-02 09:00:00"
    (by rfl) (by rfl) (by decide)).2.2.1 (by decide) (by decide)

/-- Witness for `c2_amended` at a concrete transaction exercising both
branches (two instantiations of the theorem). -/
theorem c2_amended_witness :
    Transaction.save (some { c2tx with amount_fulfilled := 0, amount_paid := 500000 }) false
        { c2tx with amount_fulfilled := 0, amount_paid := 500000 } =
      Except.ok { c2tx with amount_fulfilled := 0, amount_paid := 500000,
                            status := OrderStatus.fulfilled } ∧
    Transaction.save (some { c2tx with amount_fulfilled := 0, amount_paid := 200000 }) false
        { c2tx with amount_fulfilled := 0, amount_paid := 200000 } =
      Except.ok { c2tx with amount_fulfilled := 0, amount_paid := 200000,
                            status := OrderStatus.partially_fulfilled } := by
  constructor
  · have h := (c2_amended (some { c2tx with amount_fulfilled := 0, amount_paid := 500000 })
      { c2tx with amount_fulfilled := 0, amount_paid := 500000 }
      (by rfl) (by decide)).1 (by decide) (Or.inl (by rfl))
    exact h
  · have h := (c2_amended (some { c2tx with amount_fulfilled := 0, amount_paid := 200000 })
      { c2tx with amount_fulfilled := 0, amount_paid := 200000 }
      (by rfl) (by decide)).2 (by decide) (by decide) (by rfl)
    exact h

/-- Helper: `sumLineTotals` distributes over list append. -/
theorem sumLineTotals_append (xs ys : List TransactionLineItem) :
    sumLineTotals (xs ++ ys) = sumLineTotals xs + sumLineTotals ys := by
  simp [sumLineTotals]

/-! Claim C8 — frozen scan-time values.

`line_total` and `line_pv` are recomputed from the frozen `scanned_price` and
`scanned_pv` on every save, but there is no frozen cost field:
`TransactionLineItem.save` reads `self.product.cost_price`, the product's
current cost price at save time. -/

/-- C8 counterexample: a line item saved against its product at scan time has
`line_cost = 2 × 5.00 = 10.00`; after the product's cost price changes to
7.00, re-saving the same line item yields `line_cost = 14.00` — the product
cost is not frozen, so a later cost-price change does alter the line item's
totals, contrary to the claim.  (The frozen `line_total`/`line_pv` are
unchanged by the same re-save.) -/
theorem c8_counterexample :
    (TransactionLineItem.save c8item c8prod).line_cost = 1000 ∧
    (TransactionLineItem.save (TransactionLineItem.save c8item c8prod) c8prodLater).line_cost
      = 1400 ∧
    (1400 : Int) ≠ 1000 ∧
    (TransactionLineItem.save (TransactionLineItem.save c8item c8prod) c8prodLater).line_total
      = (TransactionLineItem.save c8item c8prod).line_total ∧
    (TransactionLineItem.save (TransactionLineItem.save c8item c8prod) c8prodLater).line_pv
      = (TransactionLineItem.save c8item c8prod).line_pv := by
  exact ⟨by rfl, by rfl, by decide, by rfl, by rfl⟩

/-- C8 amended: every save recomputes `line_total` as quantity × the frozen
`scanned_price` and `line_pv` as quantity × the frozen `scanned_pv`, so these
are unaffected by any later change to the product (the re-save against an
arbitrary product `q` gives the same values); `line_cost`, by contrast, is
recomputed as quantity × the product's *current* `cost_price` on every save
(initially the scan-time cost), so a later cost-price change alters
`line_cost` on a subsequent save. -/
theorem c8_amended (item : TransactionLineItem) (p q : Product) :
    (TransactionLineItem.save item p).line_total = item.quantity * item.scanned_price ∧
    (TransactionLineItem.save item p).line_pv = item.quantity * item.scanned_pv ∧
    (TransactionLineItem.save item q).line_total = (TransactionLineItem.save item p).line_total ∧
    (TransactionLineItem.save item q).line_pv = (TransactionLineItem.save item p).line_pv ∧
    (TransactionLineItem.save item p).line_cost = item.quantity * p.cost_price := by
  simp [TransactionLineItem.save]

/-! Claim C4 — scan atomicity on amount overflow. -/

/-- C4 confirmed: when the transaction holds the issuance slot, the product
resolves, the quantity is positive and in stock, but the new sum of line-item
totals would exceed `amount`, `scan_barcode` fails with `AmountExceeded`.  The
`Except.error` result is the whole observable effect: the source deletes the
just-created line item and raises inside `transaction.atomic()`, so the
line-item set, `amount_fulfilled`, `total_cost`, `total_pv` and `status` are
exactly as before the call — in this embedding the error constructor carries
no store at all, i.e. nothing is committed. -/
theorem c4_scan_atomicity (s : Store) (bd : BarcodeData) (scanned_by : String)
    (p : Product)
    (hiss : s.txn.is_in_issuance = true)
    (hbd : ¬ (bd.sku = none ∧ bd.prod_code = none))
    (hfind : findProduct s bd = Except.ok p)
    (hq : 0 < bd.quantity)
    (hstock : bd.quantity ≤ p.quantity)
    (hover : sumLineTotals s.line_items + bd.quantity * p.current_price > s.txn.amount) :
    scan_barcode s bd scanned_by = Except.error TxnError.amount_exceeded := by
  simp only [scan_barcode, hiss, not_true, if_false, if_neg hbd, hfind]
  rw [if_neg (by omega : ¬ bd.quantity ≤ 0),
      if_neg (by omega : ¬ p.quantity < bd.quantity)]
  rw [if_pos]
  have h1 : sumLineTotals (s.line_items ++
      [TransactionLineItem.save
        { id := s.next_item_id, product_sku := p.sku, scanned_prod_code := p.prod_code,
          scanned_prod_name := p.prod_name, scanned_sku := p.sku,
          scanned_sku_name := p.sku_name, scanned_price := p.current_price,
          scanned_pv := p.current_pv, quantity := bd.quantity,
          line_total := 0, line_cost := 0, line_pv := 0,
          scanned_by := scanned_by } p]) =
      sumLineTotals s.line_items + bd.quantity * p.current_price := by
    rw [sumLineTotals_append]
    simp [sumLineTotals, TransactionLineItem.save]
  rw [h1]
  exact hover

/-- Witness for `c4_scan_atomicity`: scanning quantity 2 of a 2000.00 product
against a 2970.00 transaction (would total 4000.00) fails atomically. -/
theorem c4_scan_atomicity_witness :
    scan_barcode c4store { sku := some "SKU-C4", prod_code := none, quantity := 2 } "staff"
      = Except.error TxnError.amount_exceeded :=
  c4_scan_atomicity c4store _ "staff" c4prod (by rfl) (by simp) (by rfl)
    (by decide) (by decide) (by decide)

/-! Claim C6 — exact-amount scan auto-fulfills. -/

/-- C6 confirmed: when a scan succeeds and the new sum of line-item totals
equals the transaction's `amount` exactly, the returned transaction has
`amount_fulfilled = amount` and status FULFILLED immediately — before
`complete_issuance` is ever called. -/
theorem c6_exact_scan_auto_fulfills (s : Store) (bd : BarcodeData)
    (scanned_by : String) (p : Product)
    (hiss : s.txn.is_in_issuance = true)
    (hst : s.txn.status = OrderStatus.processing ∨
           s.txn.status = OrderStatus.partially_fulfilled)
    (hpaid : s.txn.amount_paid ≤ s.txn.amount)
    (hbd : ¬ (bd.sku = none ∧ bd.prod_code = none))
    (hfind : findProduct s bd = Except.ok p)
    (hq : 0 < bd.quantity)
    (hstock : bd.quantity ≤ p.quantity)
    (hexact : sumLineTotals s.line_items + bd.quantity * p.current_price = s.txn.amount) :
    ∃ s', scan_barcode s bd scanned_by = Except.ok s' ∧
      s'.txn.amount_fulfilled = s'.txn.amount ∧
      s'.txn.status = OrderStatus.fulfilled := by
  simp only [scan_barcode, hiss, not_true, if_false, if_neg hbd, hfind]
  rw [if_neg (by omega : ¬ bd.quantity ≤ 0),
      if_neg (by omega : ¬ p.quantity < bd.quantity)]
  have h1 : sumLineTotals (s.line_items ++
      [TransactionLineItem.save
        { id := s.next_item_id, product_sku := p.sku, scanned_prod_code := p.prod_code,
          scanned_prod_name := p.prod_name, scanned_sku := p.sku,
          scanned_sku_name := p.sku_name, scanned_price := p.current_price,
          scanned_pv := p.current_pv, quantity := bd.quantity,
          line_total := 0, line_cost := 0, line_pv := 0,
          scanned_by := scanned_by } p]) =
      sumLineTotals s.line_items + bd.quantity * p.current_price := by
    rw [sumLineTotals_append]
    simp [sumLineTotals, TransactionLineItem.save]
  rw [h1, hexact]
  simp only [lt_self_iff_false, gt_iff_lt, if_false, ge_iff_le, le_refl, if_true]
  generalize (sumLineCosts _) = nc
  generalize (sumLinePvs _) = nv
  have hclean : Transaction.clean (some s.txn)
      { s.txn with amount_fulfilled := s.txn.amount, total_cost := some nc,
                   total_pv := some nv, is_in_issuance := true,
                   status := OrderStatus.fulfilled }
      = Except.ok () := by
    simp only [Transaction.clean]
    split_ifs with hc1 hc2 hc3
    · exfalso; simp at hc1; omega
    · exfalso; rcases hst with ht | ht <;> simp [Transaction.is_locked, ht] at hc2
    · exfalso; rcases hst with ht | ht <;>
        simp [Transaction.can_transition_to, Transaction.is_locked, valid_transitions, ht] at hc3
    · rfl
  simp only [Transaction.save, Bool.not_false, if_true, hclean]
  simp
  split_ifs <;>
    first
    | (exfalso; (try simp at *); (try omega); done)
    | (exact ⟨_, rfl, by simp, by simp⟩)

/-- Witness for `c6_exact_scan_auto_fulfills`: scanning quantity 2 of a
2000.00 product against a 4000.00 transaction fulfills it on the spot. -/
theorem c6_exact_scan_witness :
    ∃ s', scan_barcode c6store { sku := some "SKU-C4", prod_code := none, quantity := 2 }
        "staff" = Except.ok s' ∧
      s'.txn.amount_fulfilled = s'.txn.amount ∧
      s'.txn.status = OrderStatus.fulfilled :=
  c6_exact_scan_auto_fulfills c6store _ "staff" c4prod (by rfl) (Or.inl (by rfl))
    (by decide) (by simp) (by rfl) (by decide) (by decide) (by decide)

/-! Claim C7 — cancel_issuance reverts cleanly. -/

set_option maxHeartbeats 2000000 in
/-- C7 confirmed: on a transaction holding the issuance slot (and a
non-negative amount, which the storage constraint guarantees for any saved
row), `cancel_issuance` with a supplied (non-empty) reason deletes all its
line items, leaves the product catalog and movement log untouched, resets
`amount_fulfilled` to 0 and `total_cost`/`total_pv` to null, clears
`is_in_issuance`, keeps `amount`, reverts PROCESSING/PARTIALLY_FULFILLED to
NOT_PROCESSED, and appends the reason to `notes` (the source formats it as
`notes + "\n[Issuance Cancelled: reason]"` and strips the result).  On a
transaction not holding the slot it fails with `NotInIssuance`. -/
theorem c7_cancel_issuance (s : Store) (reason : String)
    (hamount : 0 ≤ s.txn.amount) :
    (s.txn.is_in_issuance = false →
      cancel_issuance s reason = Except.error TxnError.not_in_issuance) ∧
    (s.txn.is_in_issuance = true → reason ≠ "" →
      ∃ s', cancel_issuance s reason = Except.ok s' ∧
        s'.line_items = [] ∧
        s'.products = s.products ∧
        s'.movements = s.movements ∧
        s'.txn.amount_fulfilled = 0 ∧
        s'.txn.total_cost = none ∧
        s'.txn.total_pv = none ∧
        s'.txn.is_in_issuance = false ∧
        s'.txn.amount = s.txn.amount ∧
        ((s.txn.status = OrderStatus.processing ∨
          s.txn.status = OrderStatus.partially_fulfilled) →
          s'.txn.status = OrderStatus.not_processed) ∧
        s'.txn.notes = (s.txn.notes ++ "\n[Issuance Cancelled: " ++ reason ++ "]").trim) := by
  constructor
  · intro h
    simp [cancel_issuance, h]
  · intro hiss hr
    simp only [cancel_issuance, hiss, not_true, if_false, if_pos hr, Transaction.save,
      Bool.not_true, Bool.false_eq_true, if_false]
    cases ht : s.txn.status <;>
      split_ifs <;>
        first
        | (exfalso; (try simp at *); (try omega); done)
        | (exact ⟨_, rfl, by simp, by simp, by simp, by simp, by simp, by simp, by simp,
            by simp, by simp [ht], by simp⟩)

/-- Witness for `c7_cancel_issuance`: the slot-free variant fails with
`NotInIssuance`, and cancelling the slot-holding `c7store` with reason
"test" reverts cleanly (two instantiations of the theorem). -/
theorem c7_cancel_issuance_witness :
    cancel_issuance { c7store with txn := { c7store.txn with is_in_issuance := false } }
        "test" = Except.error TxnError.not_in_issuance ∧
    (∃ s', cancel_issuance c7store "test" = Except.ok s' ∧
      s'.line_items = [] ∧
      s'.products = c7store.products ∧
      s'.movements = c7store.movements ∧
      s'.txn.amount_fulfilled = 0 ∧
      s'.txn.total_cost = none ∧
      s'.txn.total_pv = none ∧
      s'.txn.is_in_issuance = false ∧
      s'.txn.amount = c7store.txn.amount ∧
      ((c7store.txn.status = OrderStatus.processing ∨
        c7store.txn.status = OrderStatus.partially_fulfilled) →
        s'.txn.status = OrderStatus.not_processed) ∧
      s'.txn.notes = (c7store.txn.notes ++ "\n[Issuance Cancelled: " ++ "test" ++ "]").trim) :=
  ⟨(c7_cancel_issuance { c7store with
      txn := { c7store.txn with is_in_issuance := false } } "test" (by decide)).1 (by rfl),
   (c7_cancel_issuance c7store "test" (by decide)).2 (by rfl) (by decide)⟩

/-! Claim C1 — locked transactions.

Every order-service operation and `activate_issuance` checks `is_locked`
first, and the three issuance operations check only `is_in_issuance` — so for
a transaction that became FULFILLED while still holding the issuance slot,
`complete_issuance` and `cancel_issuance` *succeed*, and `cancel_issuance`
even resets the locked transaction's `amount_fulfilled`/`total_cost`/
`total_pv` (saving with `skip_validation=True`). -/

/-- C1 counterexample: on a locked (FULFILLED) transaction still holding the
issuance slot, `cancel_issuance` does not fail — it succeeds and changes
`amount_fulfilled` from 2970.00 to 0 — and `complete_issuance` succeeds as
well, so "each such attempt fails with the expected error" is false as
stated. -/
theorem c1_counterexample :
    c1store.txn.is_locked = true ∧
    c1store.txn.is_in_issuance = true ∧
    c1store.txn.amount_fulfilled = 297000 ∧
    (∃ s', cancel_issuance c1store "entered by mistake" = Except.ok s' ∧
      s'.txn.amount_fulfilled = 0 ∧ s'.txn.status = OrderStatus.fulfilled) ∧
    (∃ s', complete_issuance c1store "staff" = Except.ok s') := by
  exact ⟨by rfl, by rfl, by rfl, ⟨_, by rfl, by rfl, by rfl⟩, ⟨_, by rfl⟩⟩

/-- C1 amended: locking is enforced exactly where a lock check exists.  For
every locked transaction: the four order-service operations and
`activate_issuance` fail with `TransactionLocked` and change nothing; when
the transaction does not hold the issuance slot, `scan_barcode`,
`complete_issuance` and `cancel_issuance` fail with `NotInIssuance` and
change nothing.  For a transaction that became FULFILLED while still holding
the slot (line items summing to `amount`): a further scan of a
positively-priced product still fails (`AmountExceeded`), but
`complete_issuance` *succeeds* — leaving `status`, `amount`,
`amount_fulfilled`, `amount_paid`, `total_cost` and `total_pv` unchanged,
only releasing the slot and deducting stock — and `cancel_issuance`
*succeeds*, resetting `amount_fulfilled` to 0 and `total_cost`/`total_pv` to
null on the locked transaction while status stays FULFILLED. -/
theorem c1_amended (s : Store) (bd : BarcodeData)
    (scanned_by performed_by order_id reason now : String) (amt : Int)
    (notes : Option String) (p : Product)
    (hlock : s.txn.is_locked = true) :
    mark_as_processing s.txn notes = Except.error TxnError.transaction_locked ∧
    allocate_payment s.txn order_id amt notes now = Except.error TxnError.transaction_locked ∧
    mark_as_fulfilled s.txn notes now = Except.error TxnError.transaction_locked ∧
    cancel_transaction s.txn reason now = Except.error TxnError.transaction_locked ∧
    (s.other_in_issuance = false →
      activate_issuance s = Except.error TxnError.transaction_locked) ∧
    (s.txn.is_in_issuance = false →
      scan_barcode s bd scanned_by = Except.error TxnError.not_in_issuance ∧
      complete_issuance s performed_by = Except.error TxnError.not_in_issuance ∧
      cancel_issuance s reason = Except.error TxnError.not_in_issuance) ∧
    (s.txn.is_in_issuance = true → s.txn.status = OrderStatus.fulfilled →
      sumLineTotals s.line_items = s.txn.amount →
      ¬ (bd.sku = none ∧ bd.prod_code = none) →
      findProduct s bd = Except.ok p → 0 < bd.quantity → bd.quantity ≤ p.quantity →
      0 < p.current_price →
      scan_barcode s bd scanned_by = Except.error TxnError.amount_exceeded) ∧
    (s.txn.is_in_issuance = true → s.txn.status = OrderStatus.fulfilled →
      s.txn.amount_paid = s.txn.amount → s.txn.amount_fulfilled = s.txn.amount →
      s.line_items ≠ [] →
      ∀ ps ms, applyDeductions s.txn.tx_id performed_by s.line_items s.products []
          = Except.ok (ps, ms) →
      ∃ s', complete_issuance s performed_by = Except.ok s' ∧
        s'.txn.status = s.txn.status ∧
        s'.txn.amount = s.txn.amount ∧
        s'.txn.amount_fulfilled = s.txn.amount_fulfilled ∧
        s'.txn.amount_paid = s.txn.amount_paid ∧
        s'.txn.total_cost = s.txn.total_cost ∧
        s'.txn.total_pv = s.txn.total_pv ∧
        s'.txn.is_in_issuance = false ∧
        s'.products = ps) ∧
    (s.txn.is_in_issuance = true → s.txn.status = OrderStatus.fulfilled →
      0 ≤ s.txn.amount → reason ≠ "" →
      ∃ s', cancel_issuance s reason = Except.ok s' ∧
        s'.txn.status = OrderStatus.fulfilled ∧
        s'.txn.amount = s.txn.amount ∧
        s'.txn.amount_fulfilled = 0 ∧
        s'.txn.total_cost = none ∧
        s'.txn.total_pv = none) := by
  refine ⟨?_, ?_, ?_, ?_, ?_, ?_, ?_, ?_, ?_⟩
  · simp [mark_as_processing, hlock]
  · simp [allocate_payment, hlock]
  · simp [mark_as_fulfilled, hlock]
  · simp [cancel_transaction, hlock]
  · intro ho
    simp [activate_issuance, ho, hlock]
  · intro hni
    exact ⟨by simp [scan_barcode, hni], by simp [complete_issuance, hni],
      by simp [cancel_issuance, hni]⟩
  · intro hiss hful hsum hbd hfind hq hstock hprice
    simp only [scan_barcode, hiss, not_true, if_false, if_neg hbd, hfind]
    rw [if_neg (by omega : ¬ bd.quantity ≤ 0),
        if_neg (by omega : ¬ p.quantity < bd.quantity)]
    rw [if_pos]
    have h1 : sumLineTotals (s.line_items ++
        [TransactionLineItem.save
          { id := s.next_item_id, product_sku := p.sku, scanned_prod_code := p.prod_code,
            scanned_prod_name := p.prod_name, scanned_sku := p.sku,
            scanned_sku_name := p.sku_name, scanned_price := p.current_price,
            scanned_pv := p.current_pv, quantity := bd.quantity,
            line_total := 0, line_cost := 0, line_pv := 0,
            scanned_by := scanned_by } p]) =
        sumLineTotals s.line_items + bd.quantity * p.current_price := by
      rw [sumLineTotals_append]
      simp [sumLineTotals, TransactionLineItem.save]
    rw [h1, hsum]
    have := mul_pos hq hprice
    omega
  · intro hiss hful hpe hfe hne ps ms happly
    simp only [complete_issuance, hiss, not_true, if_false]
    rw [if_neg (by simp [hne] : ¬ s.line_items.isEmpty = true)]
    rw [happly]
    simp only [hful, hfe]
    simp
    have hclean : Transaction.clean (some s.txn)
        { s.txn with amount_fulfilled := s.txn.amount, is_in_issuance := false,
                     status := OrderStatus.fulfilled } = Except.ok () :=
      clean_ok_same_status s.txn _ (by simp [hful]) (by simp; omega)
    simp only [Transaction.save, Bool.not_false, if_true, hclean]
    split_ifs <;>
      first
      | (exfalso; (try simp at *); (try omega); done)
      | (exact ⟨_, rfl, by simp [hful], by simp, by simp, by simp [hpe], by simp, by simp,
          by simp, by simp⟩)
  · intro hiss hful hA hr
    simp only [cancel_issuance, hiss, not_true, if_false, if_pos hr, Transaction.save,
      Bool.not_true, Bool.false_eq_true, if_false]
    simp only [hful]
    simp
    split_ifs <;>
      first
      | (exfalso; (try simp at *); (try omega); done)
      | (exact ⟨_, rfl, by simp, by simp, by simp, by simp, by simp⟩)

/-- Witness for `c1_amended`: four instantiations of the theorem at the
concrete C1 stores — a locked transaction rejects `mark_as_processing`, a
locked transaction without the slot rejects `scan_barcode` with
`NotInIssuance`, the FULFILLED-in-slot transaction rejects a further scan
with `AmountExceeded`, and its `cancel_issuance` succeeds while resetting
the money fields. -/
theorem c1_amended_witness :
    mark_as_processing c1store.txn none = Except.error TxnError.transaction_locked ∧
    scan_barcode c1storeOut c1bd "staff" = Except.error TxnError.not_in_issuance ∧
    scan_barcode c1store c1bd "staff" = Except.error TxnError.amount_exceeded ∧
    (∃ s', cancel_issuance c1store "late cancel" = Except.ok s' ∧
      s'.txn.status = OrderStatus.fulfilled ∧
      s'.txn.amount = c1store.txn.amount ∧
      s'.txn.amount_fulfilled = 0 ∧
      s'.txn.total_cost = none ∧
      s'.txn.total_pv = none) :=
  ⟨(c1_amended c1store c1bd "staff" "staff" "O1" "late cancel" "now" 100 none c1prod
      (by rfl)).1,
   ((c1_amended c1storeOut c1bd "staff" "staff" "O1" "late cancel" "now" 100 none c1prod
      (by rfl)).2.2.2.2.2.1 (by rfl)).1,
   (c1_amended c1store c1bd "staff" "staff" "O1" "late cancel" "now" 100 none c1prod
      (by rfl)).2.2.2.2.2.2.1 (by rfl) (by rfl) (by decide) (by decide) (by rfl)
      (by decide) (by decide) (by decide),
   (c1_amended c1store c1bd "staff" "staff" "O1" "late cancel" "now" 100 none c1prod
      (by rfl)).2.2.2.2.2.2.2.2 (by rfl) (by rfl) (by decide) (by decide)⟩

/-! Claim C3 — the deduplication hash.

The two call sites do not compute one function of `(tx_id, amount,
timestamp)`: the parser-pipeline task hashes `f"{tx_id}|{amount}|{timestamp}"`
while manual-payment creation hashes
`f"{tx_id}{sender_name}{amount}{timestamp}"` — a fourth field and no
separators — so the same logical payment yields different digests at the two
call sites. -/

/-- Helper: one SHA-256 round yields an eight-word state. -/
theorem shaRound_length (st : List Nat) (kw : Nat × Nat) :
    (shaRound st kw).length = 8 := by
  simp [shaRound]

/-- Helper: folding rounds over an eight-word state keeps eight words. -/
theorem foldl_shaRound_length (l : List (Nat × Nat)) (st : List Nat)
    (h : st.length = 8) : (l.foldl shaRound st).length = 8 := by
  induction l generalizing st with
  | nil => simpa using h
  | cons x xs ih => exact ih _ (shaRound_length _ _)

/-- Helper: block compression keeps eight words. -/
theorem compressBlock_length (H b : List Nat) (h : H.length = 8) :
    (compressBlock H b).length = 8 := by
  simp [compressBlock, foldl_shaRound_length _ _ h, h]

/-- Helper: folding block compression from an eight-word state keeps eight
words. -/
theorem foldl_compressBlock_length (bs : List (List Nat)) (H : List Nat)
    (h : H.length = 8) : (bs.foldl compressBlock H).length = 8 := by
  induction bs generalizing H with
  | nil => simpa using h
  | cons b rest ih => exact ih _ (compressBlock_length _ _ h)

/-- Helper: the SHA-256 digest always has eight words. -/
theorem sha256Words_length (msg : List Nat) : (sha256Words msg).length = 8 :=
  foldl_compressBlock_length _ _ (by rfl)

/-- Helper: each word renders as eight hex characters. -/
theorem word2hex_length (w : Nat) : (word2hex w).length = 8 := by
  simp [word2hex]

/-- Helper: rendering a word list yields eight characters per word. -/
theorem bind_word2hex_length (l : List Nat) :
    (l.bind word2hex).length = 8 * l.length := by
  induction l with
  | nil => simp
  | cons x xs ih => simp [word2hex_length, ih]; omega

/-- Helper: `hexDigitChar` always lands in the sixteen lowercase hex
digits. -/
theorem hexDigitChar_mem (n : Nat) : hexDigitChar n ∈ hexCharList := by
  have h16 : ∀ k < 16, hexCharList.getD k '0' ∈ hexCharList := by decide
  exact h16 _ (Nat.mod_lt _ (by norm_num))

/-- Helper: every SHA-256 hexdigest has exactly 64 characters, all lowercase
hex digits. -/
theorem sha256_hexdigest_shape (msg : List Nat) :
    (sha256_hexdigest msg).length = 64 ∧
    ∀ c ∈ (sha256_hexdigest msg).data, c ∈ hexCharList := by
  constructor
  · have h := bind_word2hex_length (sha256Words msg)
    rw [sha256Words_length] at h
    show ((sha256Words msg).bind word2hex).length = 64
    omega
  · intro c hc
    have hc' : c ∈ (sha256Words msg).bind word2hex := hc
    rcases List.mem_bind.mp hc' with ⟨w, _, hcw⟩
    simp only [word2hex, List.mem_map] at hcw
    rcases hcw with ⟨s, _, rfl⟩
    exact hexDigitChar_mem _

set_option maxRecDepth 100000 in
/-- C3 counterexample: for the same logical payment — `tx_id` "ABC123",
amount serialized "2970.0", timestamp serialized "2024-01-01 10:00:00",
sender "JOHN DOE" — the task call site and the manual-payment call site
produce different 64-character digests, so the deduplication hash is not one
function of `(tx_id, amount, timestamp)` shared by both call sites. -/
theorem c3_counterexample :
    process_raw_message_unique_hash "ABC123" "2970.0" "2024-01-01 10:00:00" ≠
      generate_unique_hash "ABC123" "JOHN DOE" "2970.0" "2024-01-01 10:00:00" := by
  decide

/-- C3 amended: each call site produces a 64-character lowercase-hex SHA-256
digest, but over different preimages: the parser-pipeline task hashes
`tx_id|amount|timestamp` (pipe-separated, three fields) while manual-payment
creation hashes `tx_id + sender_name + amount + timestamp` (four fields, no
separators), so even with identical field serialization the same logical
payment yields different byte strings — and, per the counterexample,
different digests — at the two call sites. -/
theorem c3_amended :
    (∀ tx amount ts : String,
      (process_raw_message_unique_hash tx amount ts).length = 64 ∧
      ∀ c ∈ (process_raw_message_unique_hash tx amount ts).data, c ∈ hexCharList) ∧
    (∀ tx sender amount ts : String,
      (generate_unique_hash tx sender amount ts).length = 64 ∧
      ∀ c ∈ (generate_unique_hash tx sender amount ts).data, c ∈ hexCharList) ∧
    encodeUtf8 ("ABC123" ++ "|" ++ "2970.0" ++ "|" ++ "2024-01-01 10:00:00") ≠
      encodeUtf8 ("ABC123" ++ "JOHN DOE" ++ "2970.0" ++ "2024-01-01 10:00:00") := by
  refine ⟨fun tx amount ts => sha256_hexdigest_shape _,
          fun tx sender amount ts => sha256_hexdigest_shape _, by decide⟩

/-- Witness for `c3_amended` at a concrete payment (both call sites). -/
theorem c3_amended_witness :
    (process_raw_message_unique_hash "W1TX" "10.0" "2025-01-01 00:00:00").length = 64 ∧
    (generate_unique_hash "W1TX" "JANE" "10.0" "2025-01-01 00:00:00").length = 64 :=
  ⟨(c3_amended.1 "W1TX" "10.0" "2025-01-01 00:00:00").1,
   (c3_amended.2.1 "W1TX" "JANE" "10.0" "2025-01-01 00:00:00").1⟩

/-! Claim C9 — parser pattern families and confidence scores.

`parse_mpesa_sms` does try the patterns in order with first-match-wins, the
till patterns do score 0.90, and unmatched text does return the
zero-confidence dict with the original text.  But the paybill pattern can
never win: its regex is the till regex plus a suffix and `re.match` only
anchors at the start, so the till pattern (tried first) matches a prefix of
every paybill message.  The dedicated paybill entry — scoring 0.95 with the
destination account — is unreachable from `parse_mpesa_sms`, which
contradicts both the pattern's evident purpose and the spec. -/

set_option maxRecDepth 1000000 in
/-- C9 evaluation at the failing input: the paybill pattern itself matches
the paybill SMS (and its extraction function would return confidence 0.95
with destination account "ACC9"), yet `parse_mpesa_sms` returns the
till-pattern result — confidence 0.90, gateway type "till", no destination
account — because the till pattern is tried first and matches a prefix. -/
theorem c9_paybill_pattern_shadowed :
    (reMatch paybillToks c9paybillText).isSome = true ∧
    parse_mpesa_sms c9paybillText = some (ParseOutcome.parsed c9tillParsed) ∧
    c9tillParsed.confidence = 90 ∧
    c9tillParsed.gateway_type = "till" ∧
    c9tillParsed.destination_number = none ∧
    ((reMatch paybillToks c9paybillText).bind parse_paybill_receipt).map
        (fun p => (p.confidence, p.gateway_type, p.destination_number))
      = some (95, "paybill", some "ACC9") ∧
    parse_mpesa_sms "hello world" = some (ParseOutcome.noMatch "hello world") := by
  exact ⟨by rfl, by decide, by rfl, by rfl, by rfl, by decide, by decide⟩

/-! Claim C10 — confident parse but no device gateway. -/

/-- C10 confirmed: when an unprocessed message parses with confidence above
the 0.8 threshold but the device has no gateway assigned,
`process_raw_message` returns the state unchanged — no Transaction is
created, the message is linked to nothing, and its `processed` flag stays
`False`, so it remains eligible for reprocessing. -/
theorem c10_no_gateway_skips_creation (s : TaskState) (o : ParseOutcome)
    (hp : s.msg.processed = false)
    (hparse : parse_mpesa_sms s.msg.raw_text = some o)
    (hconf : o.confidence > 80)
    (hgw : s.device_gateway = none) :
    process_raw_message s = s ∧
    (process_raw_message s).transactions = s.transactions ∧
    (process_raw_message s).msg.processed = false ∧
    (process_raw_message s).msg.transaction_link = s.msg.transaction_link := by
  have h : process_raw_message s = s := by
    cases o <;> simp [process_raw_message, hp, hparse, hgw]
  exact ⟨h, by rw [h], by rw [h]; exact hp, by rw [h]⟩

set_option maxRecDepth 1000000 in
/-- Witness for `c10_no_gateway_skips_creation`: a confident till SMS
(confidence 0.90 > 0.80) on a device with no gateway. -/
theorem c10_no_gateway_witness :
    process_raw_message c10state = c10state ∧
    (process_raw_message c10state).transactions = c10state.transactions ∧
    (process_raw_message c10state).msg.processed = false ∧
    (process_raw_message c10state).msg.transaction_link =
      c10state.msg.transaction_link :=
  c10_no_gateway_skips_creation c10state (ParseOutcome.parsed c9tillParsed)
    (by rfl) (by decide) (by decide) (by rfl)

